import Mathlib

/-!
Shallow embedding of the `sync-to-async` repository: the REST gateway
(`src/rest/main.go`) and the worker (`src/worker/worker.go`).

The gateway mints a request id, stamps timestamps into a `Message`
envelope, serializes it with struct tags and pushes it onto the Redis
list `validate:queue`; the worker pops, stamps, uppercases the content,
sets the result flag, and republishes the envelope under the key
`validate:response:<request_id>` with a one hour expiration, on which
the gateway performs a blocking pop.

Machine integers (Go `int64` nanosecond timestamps) are modelled as
`Int`; Go pointer fields (`*int64`) as `Option Int`; JSON wire payloads
as a small JSON value AST (`Json`), with serialization following the Go
struct tags and `encoding/json` semantics (missing field or `null`
leaves the zero value; a type mismatch is an unmarshal error).
-/

namespace SyncToAsync

/-- JSON value AST: the wire format between gateway, Redis and worker. -/
inductive Json where
  | null : Json
  | num : Int → Json
  | str : String → Json
  | bool : Bool → Json
  | obj : List (String × Json) → Json

/-- `true` exactly on the JSON `null` value. -/
def isNullJson : Json → Bool
  | Json.null => true
  | _ => false

/-- Field names of a JSON object, in serialization order. -/
def objKeys : Json → List String
  | Json.obj fs => fs.map Prod.fst
  | _ => []

/-- The value of a field of a JSON object (`Json.null` if absent). -/
def objField (j : Json) (k : String) : Json :=
  match j with
  | Json.obj fs => (List.lookup k fs).getD Json.null
  | _ => Json.null

/-- Gateway timing record, `rest/main.go` `Meta`: six `*int64` fields
(nullable nanosecond timestamps), in struct-tag order. -/
structure Meta where
  restRequestReceived  : Option Int
  restRequestPushed    : Option Int
  workerRequestPulled  : Option Int
  workerResponsePushed : Option Int
  restResponsePulled   : Option Int
  roundtripDurationNs  : Option Int

/-- Business payload, `Data` in both services: `content` and `result`. -/
structure Data where
  content : String
  result  : Bool

/-- Gateway envelope, `rest/main.go` `Message`. -/
structure Message where
  requestID : String
  meta : Meta
  data : Data

/-- Worker timing record, `worker/worker.go` `Meta`: the same six JSON
tags but plain (non-pointer) `int64` fields. -/
structure WMeta where
  restRequestReceived  : Int
  restRequestPushed    : Int
  workerRequestPulled  : Int
  workerResponsePushed : Int
  restResponsePulled   : Int
  roundtripDurationNs  : Int

/-- Worker envelope, `worker/worker.go` `Message`. -/
structure WMessage where
  requestID : String
  meta : WMeta
  data : Data

/-- Go marshalling of a `*int64` field: `nil` becomes JSON `null`. -/
def optIntJson : Option Int → Json
  | none => Json.null
  | some n => Json.num n

/-- Fields of the marshalled gateway `Meta`, in struct order with the
exact JSON tags of `rest/main.go`. -/
def restMetaFields (m : Meta) : List (String × Json) :=
  [("rest_request_received_ns", optIntJson m.restRequestReceived),
   ("rest_request_pushed_ns", optIntJson m.restRequestPushed),
   ("worker_request_pulled_ns", optIntJson m.workerRequestPulled),
   ("worker_response_pushed_ns", optIntJson m.workerResponsePushed),
   ("rest_response_pulled_ns", optIntJson m.restResponsePulled),
   ("rest_roundtrip_duration_ns", optIntJson m.roundtripDurationNs)]

/-- Marshalling of the gateway `Message` (`jsoniter.Marshal` /
`c.JSON`), following the struct tags of `rest/main.go`. -/
def restSerialize (m : Message) : Json :=
  Json.obj
    [("request_id", Json.str m.requestID),
     ("meta", Json.obj (restMetaFields m.meta)),
     ("data", Json.obj
        [("content", Json.str m.data.content),
         ("result", Json.bool m.data.result)])]

/-- Fields of the marshalled worker `Meta`: plain `int64` fields always
serialize to a JSON number (no `omitempty`, no `null`). -/
def workerMetaFields (w : WMeta) : List (String × Json) :=
  [("rest_request_received_ns", Json.num w.restRequestReceived),
   ("rest_request_pushed_ns", Json.num w.restRequestPushed),
   ("worker_request_pulled_ns", Json.num w.workerRequestPulled),
   ("worker_response_pushed_ns", Json.num w.workerResponsePushed),
   ("rest_response_pulled_ns", Json.num w.restResponsePulled),
   ("rest_roundtrip_duration_ns", Json.num w.roundtripDurationNs)]

/-- Marshalling of the worker `Message` (`json.Marshal` in
`worker/worker.go`). -/
def workerSerialize (wm : WMessage) : Json :=
  Json.obj
    [("request_id", Json.str wm.requestID),
     ("meta", Json.obj (workerMetaFields wm.meta)),
     ("data", Json.obj
        [("content", Json.str wm.data.content),
         ("result", Json.bool wm.data.result)])]

/-- Go unmarshalling of an `int64` struct field: a missing field or
JSON `null` leaves the zero value `0`; a number is taken as is; any
other JSON type is an unmarshal error. -/
def parseGoInt (fs : List (String × Json)) (k : String) : Option Int :=
  match List.lookup k fs with
  | none => some 0
  | some Json.null => some 0
  | some (Json.num n) => some n
  | some _ => none

/-- Go unmarshalling of a `*int64` struct field: a missing field or
JSON `null` leaves the `nil` pointer; a number allocates a value. -/
def parsePtrInt (fs : List (String × Json)) (k : String) :
    Option (Option Int) :=
  match List.lookup k fs with
  | none => some none
  | some Json.null => some none
  | some (Json.num n) => some (some n)
  | some _ => none

/-- Go unmarshalling of a `string` struct field. -/
def parseGoString (fs : List (String × Json)) (k : String) :
    Option String :=
  match List.lookup k fs with
  | none => some ""
  | some Json.null => some ""
  | some (Json.str s) => some s
  | some _ => none

/-- Go unmarshalling of a `bool` struct field. -/
def parseGoBool (fs : List (String × Json)) (k : String) : Option Bool :=
  match List.lookup k fs with
  | none => some false
  | some Json.null => some false
  | some (Json.bool b) => some b
  | some _ => none

/-- Unmarshalling of the `Data` struct shared by both services. -/
def parseDataFields (fs : List (String × Json)) : Option Data := do
  let c ← parseGoString fs "content"
  let r ← parseGoBool fs "result"
  pure ⟨c, r⟩

/-- Unmarshalling of the nested `data` field: missing or `null` leaves
the zero `Data`. -/
def parseDataField (fs : List (String × Json)) : Option Data :=
  match List.lookup "data" fs with
  | none => some ⟨"", false⟩
  | some Json.null => some ⟨"", false⟩
  | some (Json.obj dfs) => parseDataFields dfs
  | some _ => none

/-- Unmarshalling of the worker `Meta` object body. -/
def workerParseMeta (fs : List (String × Json)) : Option WMeta := do
  let a ← parseGoInt fs "rest_request_received_ns"
  let b ← parseGoInt fs "rest_request_pushed_ns"
  let c ← parseGoInt fs "worker_request_pulled_ns"
  let d ← parseGoInt fs "worker_response_pushed_ns"
  let e ← parseGoInt fs "rest_response_pulled_ns"
  let f ← parseGoInt fs "rest_roundtrip_duration_ns"
  pure ⟨a, b, c, d, e, f⟩

/-- Unmarshalling of the worker nested `meta` field: missing or `null`
leaves the zero `WMeta` (all timestamps `0`). -/
def workerParseMetaField (fs : List (String × Json)) : Option WMeta :=
  match List.lookup "meta" fs with
  | none => some ⟨0, 0, 0, 0, 0, 0⟩
  | some Json.null => some ⟨0, 0, 0, 0, 0, 0⟩
  | some (Json.obj mfs) => workerParseMeta mfs
  | some _ => none

/-- `json.Unmarshal` of a job payload into the worker `Message`
(`worker/worker.go` line 55). -/
def workerParse : Json → Option WMessage
  | Json.obj fs => do
      let rid ← parseGoString fs "request_id"
      let me ← workerParseMetaField fs
      let da ← parseDataField fs
      pure ⟨rid, me, da⟩
  | _ => none

/-- Unmarshalling of the gateway `Meta` object body. -/
def gatewayParseMeta (fs : List (String × Json)) : Option Meta := do
  let a ← parsePtrInt fs "rest_request_received_ns"
  let b ← parsePtrInt fs "rest_request_pushed_ns"
  let c ← parsePtrInt fs "worker_request_pulled_ns"
  let d ← parsePtrInt fs "worker_response_pushed_ns"
  let e ← parsePtrInt fs "rest_response_pulled_ns"
  let f ← parsePtrInt fs "rest_roundtrip_duration_ns"
  pure ⟨a, b, c, d, e, f⟩

/-- Unmarshalling of the gateway nested `meta` field: missing or `null`
leaves the zero `Meta` (all pointers `nil`). -/
def gatewayParseMetaField (fs : List (String × Json)) : Option Meta :=
  match List.lookup "meta" fs with
  | none => some ⟨none, none, none, none, none, none⟩
  | some Json.null => some ⟨none, none, none, none, none, none⟩
  | some (Json.obj mfs) => gatewayParseMeta mfs
  | some _ => none

/-- `json.Unmarshal` of a result payload into the gateway `Message`
(`rest/main.go` line 218). -/
def gatewayParse : Json → Option Message
  | Json.obj fs => do
      let rid ← parseGoString fs "request_id"
      let me ← gatewayParseMetaField fs
      let da ← parseDataField fs
      pure ⟨rid, me, da⟩
  | _ => none

/-- `prepareMessage` (`rest/main.go` lines 188-200): builds the initial
envelope. Clock reads and the minted UUID are passed explicitly:
`requestReceived` is the handler-entry read, `pushTime` the `nowNs()`
read at envelope construction, `rid` the `uuid.New().String()` value. -/
def prepareMessage (content : String) (requestReceived pushTime : Int)
    (rid : String) : Message :=
  { requestID := rid,
    meta := { restRequestReceived := some requestReceived,
              restRequestPushed := some pushTime,
              workerRequestPulled := none,
              workerResponsePushed := none,
              restResponsePulled := none,
              roundtripDurationNs := none },
    data := { content := content, result := false } }

/-- The slot name the gateway blocks on, `rest/main.go` line 211:
`fmt.Sprintf("validate:response:%s", requestId)`. -/
def restResultKey (requestId : String) : String :=
  "validate:response:" ++ requestId

/-- The slot name the worker publishes to, `worker/worker.go` line 71:
`fmt.Sprintf("validate:response:%s", msg.RequestID)`. -/
def workerResultKey (requestId : String) : String :=
  "validate:response:" ++ requestId

/-- A result store holding exactly one slot. -/
def singleSlot (key : String) (payload : Json) : String → Option Json :=
  fun k => if k = key then some payload else none

/-- `waitForResult` (`rest/main.go` lines 210-224): blocking pop on the
slot named by the correlation ID, then unmarshal. `none` models both the
`BLPop` timeout/transport error and the unmarshal error (the handler
maps either to 504). The best-effort `Del` does not affect the value. -/
def waitForResult (requestId : String) (store : String → Option Json) :
    Option Message :=
  match store (restResultKey requestId) with
  | none => none
  | some payload => gatewayParse payload

/-- Worker pull stamp, `worker/worker.go` line 61:
`msg.Meta.WorkerRequestPulled = nowNs()`. -/
def workerStampPulled (wm : WMessage) (t : Int) : WMessage :=
  { wm with meta := { wm.meta with workerRequestPulled := t } }

/-- Character-wise uppercasing: the embedding of Go
`strings.ToUpper` (ASCII-faithful; the payloads here are ASCII). -/
def goToUpper (s : String) : String :=
  String.mk (s.data.map Char.toUpper)

/-- Worker processing step, `worker/worker.go` lines 64-65:
`msg.Data.Content = strings.ToUpper(msg.Data.Content)` and
`msg.Data.Result = true`. -/
def workerProcess (wm : WMessage) : WMessage :=
  { wm with data := { content := goToUpper wm.data.content, result := true } }

/-- Worker push stamp, `worker/worker.go` line 68:
`msg.Meta.WorkerResponsePushed = nowNs()`. -/
def workerStampPushed (wm : WMessage) (t : Int) : WMessage :=
  { wm with meta := { wm.meta with workerResponsePushed := t } }

/-- One processed job, `worker/worker.go` lines 60-68: pull stamp at
`pullTime`, processing, push stamp at `pushTime`. -/
def workerStep (wm : WMessage) (pullTime pushTime : Int) : WMessage :=
  workerStampPushed (workerProcess (workerStampPulled wm pullTime)) pushTime

/-- `time.Hour` in nanoseconds. -/
def oneHourNs : Int := 3600 * 1000000000

/-- A published result slot: key, serialized payload, and the TTL set by
`rdb.Expire(ctx, resultKey, time.Hour)`. -/
structure Slot where
  key : String
  payload : Json
  ttlNs : Int

/-- A successful worker publish, `worker/worker.go` lines 71-79: `RPush`
of the marshalled envelope under `validate:response:<id>`, followed by
`Expire` with `time.Hour`. -/
def workerPublish (wm : WMessage) : Slot :=
  { key := workerResultKey wm.requestID,
    payload := workerSerialize wm,
    ttlNs := oneHourNs }

/-- Whether an unconsumed slot published at `publishedAt` still exists
at time `t` (it is removed once its TTL has elapsed). -/
def slotAliveAt (s : Slot) (publishedAt t : Int) : Bool :=
  decide (t < publishedAt + s.ttlNs)

/-- `finalizeResult` (`rest/main.go` lines 234-254): stamps the consumed
envelope with `now`, computes the roundtrip duration `now - received`,
and observes the stage durations (returned here in nanoseconds, in
observation order; the code divides by 1e6 for the millisecond
histograms). The four dereferences of timestamps the gateway did not
itself just set (`received`, `pushed`, `pulled`, `workerPushed`) are
modelled by the match: a `nil` pointer there is a panic, i.e. `none`. -/
def finalizeResult (m : Message) (now : Int) :
    Option (Message × List Int) :=
  match m.meta.restRequestReceived, m.meta.restRequestPushed,
        m.meta.workerRequestPulled, m.meta.workerResponsePushed with
  | some received, some pushed, some pulled, some wpushed =>
      let duration := now - received
      let final : Message :=
        { m with meta := { m.meta with restResponsePulled := some now,
                                       roundtripDurationNs := some duration } }
      some (final, [pushed - received, pulled - pushed, wpushed - pulled,
                    now - wpushed, now - now, duration])
  | _, _, _, _ => none

/-- Outcome of one `validateHandler` call. `crash` is the nil-pointer
panic inside `finalizeResult`, which produces no HTTP response. -/
inductive HandlerResult where
  | badRequest
  | serverError
  | gatewayTimeout
  | crash
  | ok (body : Message)

/-- The HTTP status of a handler outcome (`fiber.StatusBadRequest` 400,
`fiber.StatusInternalServerError` 500, `fiber.StatusGatewayTimeout` 504,
200 on success; a panic yields no status, modelled as 0). -/
def statusCode : HandlerResult → Nat
  | HandlerResult.badRequest => 400
  | HandlerResult.serverError => 500
  | HandlerResult.gatewayTimeout => 504
  | HandlerResult.crash => 0
  | HandlerResult.ok _ => 200

/-- `validateHandler` (`rest/main.go` lines 149-176). Externals are
explicit: `receivedTime`/`pushTime`/`consumeTime` are the clock reads,
`rid` the minted UUID, `pushOk` whether the Redis `RPush` succeeds,
`store` the result-slot state consulted by `waitForResult`, `queue` the
job queue. Returns the outcome and the job queue after the call. -/
def validateHandler (content : String) (receivedTime pushTime : Int)
    (rid : String) (pushOk : Bool) (store : String → Option Json)
    (consumeTime : Int) (queue : List Json) :
    HandlerResult × List Json :=
  if content = "" then (HandlerResult.badRequest, queue)
  else
    let m := prepareMessage content receivedTime pushTime rid
    if pushOk = false then (HandlerResult.serverError, queue)
    else
      let pushedQueue := queue ++ [restSerialize m]
      match waitForResult m.requestID store with
      | none => (HandlerResult.gatewayTimeout, pushedQueue)
      | some res =>
        match finalizeResult res consumeTime with
        | none => (HandlerResult.crash, pushedQueue)
        | some (final, _) => (HandlerResult.ok final, pushedQueue)

/-- What one iteration of the worker loop observes from its
environment: the outcome of the blocking pop, the two clock reads, and
whether the result `RPush` succeeds. -/
structure WorkerEnv where
  popPayload : Option Json
  pullTime : Int
  pushTime : Int
  pushOk : Bool

/-- The worker loop, `worker/worker.go` lines 46-82, run over a finite
stream of per-iteration environments (`popPayload = none` is a `BLPop`
transport error). Returns the slots successfully published. Every
branch of the loop body continues to the next iteration: transport
errors retry the pop, malformed envelopes and failed pushes are logged
and dropped. -/
def runWorker : List WorkerEnv → List Slot
  | [] => []
  | e :: rest =>
    match e.popPayload with
    | none => runWorker rest
    | some payload =>
      match workerParse payload with
      | none => runWorker rest
      | some wm =>
        let wm2 := workerStep wm e.pullTime e.pushTime
        if e.pushOk then workerPublish wm2 :: runWorker rest
        else runWorker rest

/-- The five stage timestamps of a gateway timing record, in stage
order: received, enqueued, picked-up, processed, result-consumed. -/
def metaStamp (m : Meta) : Nat → Option Int
  | 0 => m.restRequestReceived
  | 1 => m.restRequestPushed
  | 2 => m.workerRequestPulled
  | 3 => m.workerResponsePushed
  | 4 => m.restResponsePulled
  | _ => none

/-- Spec invariant on a timing record: if stage timestamp `j` is set,
every earlier stage timestamp is also set and numerically ≤ it. -/
def timestampInvariant (m : Meta) : Prop :=
  ∀ j, j < 5 → ∀ i, i < j → ∀ tj, metaStamp m j = some tj →
    ∃ ti, metaStamp m i = some ti ∧ ti ≤ tj

/-- The worker pull stamp viewed on the gateway-side optional timing
record: stage picked-up becomes set (the abstract content of
`worker/worker.go` line 61 on the envelope lifecycle). -/
def stampPickedUp (m : Message) (t : Int) : Message :=
  { m with meta := { m.meta with workerRequestPulled := some t } }

/-- The worker push stamp viewed on the gateway-side optional timing
record: stage processed becomes set (the abstract content of
`worker/worker.go` line 68 on the envelope lifecycle). -/
def stampProcessed (m : Message) (t : Int) : Message :=
  { m with meta := { m.meta with workerResponsePushed := some t } }

/-- The zero value of the worker `Message` struct. -/
def wmZero : WMessage := ⟨"", ⟨0, 0, 0, 0, 0, 0⟩, ⟨"", false⟩⟩

/-- A single-slot store answers its own key. -/
theorem singleSlot_self (key : String) (payload : Json) :
    singleSlot key payload key = some payload := by
  simp [singleSlot]

/-- C1: for every valid submitted request, the envelope returned by
`waitForResult` carries the correlation ID minted at submission: the
gateway blocks on `validate:response:<id>`, which is exactly the key
derived by the worker from the (preserved) `request_id` of the popped
job, so the result it consumes is the one published for its own ID. -/
theorem await_result_matches_submission (content rid : String)
    (t1 t2 t3 t4 : Int) :
    workerResultKey rid = restResultKey rid ∧
    (prepareMessage content t1 t2 rid).requestID = rid ∧
    ∃ wm : WMessage,
      workerParse (restSerialize (prepareMessage content t1 t2 rid)) = some wm ∧
      wm.requestID = rid ∧
      ∃ m : Message,
        waitForResult (prepareMessage content t1 t2 rid).requestID
          (singleSlot (workerPublish (workerStep wm t3 t4)).key
                      (workerPublish (workerStep wm t3 t4)).payload) = some m ∧
        m.requestID = rid := by
  refine ⟨rfl, rfl, ⟨rid, ⟨t1, t2, 0, 0, 0, 0⟩, ⟨content, false⟩⟩, rfl, rfl,
          ⟨rid, ⟨some t1, some t2, some t3, some t4, some 0, some 0⟩,
           ⟨goToUpper content, true⟩⟩, ?_, rfl⟩
  show (match singleSlot (workerPublish (workerStep ⟨rid, ⟨t1, t2, 0, 0, 0, 0⟩,
          ⟨content, false⟩⟩ t3 t4)).key
          (workerPublish (workerStep ⟨rid, ⟨t1, t2, 0, 0, 0, 0⟩,
            ⟨content, false⟩⟩ t3 t4)).payload
          (restResultKey rid) with
        | none => none
        | some payload => gatewayParse payload) = _
  rw [show singleSlot (workerPublish (workerStep ⟨rid, ⟨t1, t2, 0, 0, 0, 0⟩,
        ⟨content, false⟩⟩ t3 t4)).key
        (workerPublish (workerStep ⟨rid, ⟨t1, t2, 0, 0, 0, 0⟩,
          ⟨content, false⟩⟩ t3 t4)).payload
        (restResultKey rid) = some (workerPublish (workerStep ⟨rid,
          ⟨t1, t2, 0, 0, 0, 0⟩, ⟨content, false⟩⟩ t3 t4)).payload from
      singleSlot_self _ _]
  rfl

/-- C2: the worker step uppercases the payload content and sets the
outcome flag; the published payload is the serialization of that
envelope; in particular content `balagan` becomes `BALAGAN`. -/
theorem worker_uppercases_and_flags_result (wm : WMessage) (t3 t4 : Int) :
    (workerStep wm t3 t4).data.content = goToUpper wm.data.content ∧
    (workerStep wm t3 t4).data.result = true ∧
    (workerPublish (workerStep wm t3 t4)).payload =
      workerSerialize (workerStep wm t3 t4) ∧
    (workerStep ⟨"id-1", ⟨1, 2, 0, 0, 0, 0⟩, ⟨"balagan", false⟩⟩ t3 t4).data.content
      = "BALAGAN" :=
  ⟨rfl, rfl, rfl, rfl⟩

/-- C5: on a fully stamped envelope, `finalizeResult` stamps the
result-consumed timestamp with `now`, sets the roundtrip duration to
`now - received` (i.e. consumed minus received), observes every
adjacent stage-to-stage duration as later minus earlier (the first four
entries of the observation list), and returns the envelope. -/
theorem finalize_records_durations (rid content : String) (res : Bool)
    (rp rt : Option Int) (t1 t2 t3 t4 now : Int) :
    finalizeResult ⟨rid, ⟨some t1, some t2, some t3, some t4, rp, rt⟩,
        ⟨content, res⟩⟩ now =
      some (⟨rid, ⟨some t1, some t2, some t3, some t4, some now,
                   some (now - t1)⟩, ⟨content, res⟩⟩,
            [t2 - t1, t3 - t2, t4 - t3, now - t4, now - now, now - t1]) :=
  rfl

/-- C8: every slot the worker publishes carries an explicit TTL of one
hour, under the deterministic result key, and an unconsumed slot is no
longer alive once one hour has elapsed after the publish. -/
theorem result_slot_ttl_one_hour (wm : WMessage) (publishedAt : Int) :
    (workerPublish wm).ttlNs = oneHourNs ∧
    oneHourNs = 3600 * 1000000000 ∧
    (workerPublish wm).key = workerResultKey wm.requestID ∧
    slotAliveAt (workerPublish wm) publishedAt (publishedAt + oneHourNs)
      = false := by
  refine ⟨rfl, rfl, rfl, ?_⟩
  simp [slotAliveAt, workerPublish]

/-- C10: `finalizeResult` succeeds exactly when the four timestamps it
dereferences are present, and `waitForResult` hands over envelopes
without validating them: a well-formed but timestamp-free result payload
is returned as-is and then makes `finalizeResult` fail (nil-pointer
panic in the Go code). -/
theorem finalize_requires_all_stamps :
    (∀ (m : Message) (now : Int),
        (finalizeResult m now).isSome =
          (m.meta.restRequestReceived.isSome &&
           m.meta.restRequestPushed.isSome &&
           m.meta.workerRequestPulled.isSome &&
           m.meta.workerResponsePushed.isSome)) ∧
    (∃ (payload : Json) (m : Message),
        waitForResult "req-1" (singleSlot (restResultKey "req-1") payload)
          = some m ∧
        finalizeResult m 0 = none) := by
  constructor
  · intro m now
    rcases m with ⟨rid, ⟨a, b, c, d, e, f⟩, da⟩
    cases a <;> cases b <;> cases c <;> cases d <;> rfl
  · exact ⟨Json.obj [("request_id", Json.str "req-1")],
           ⟨"req-1", ⟨none, none, none, none, none, none⟩, ⟨"", false⟩⟩,
           rfl, rfl⟩

/-- C3: at every point of the envelope lifecycle — after submission
stamping, after the worker pull stamp, after the worker push stamp, and
after finalization — the timing-record invariant holds: a set stage
timestamp has all earlier stage timestamps set and numerically ≤ it,
provided successive clock reads across the stamping points are
non-decreasing. -/
theorem envelope_timestamp_invariant (content rid : String)
    (t1 t2 t3 t4 t5 : Int) (h12 : t1 ≤ t2) (h23 : t2 ≤ t3)
    (h34 : t3 ≤ t4) (h45 : t4 ≤ t5) :
    timestampInvariant (prepareMessage content t1 t2 rid).meta ∧
    timestampInvariant
      (stampPickedUp (prepareMessage content t1 t2 rid) t3).meta ∧
    timestampInvariant
      (stampProcessed (stampPickedUp (prepareMessage content t1 t2 rid) t3)
        t4).meta ∧
    ∃ final obs,
      finalizeResult
          (stampProcessed (stampPickedUp (prepareMessage content t1 t2 rid) t3)
            t4) t5 = some (final, obs) ∧
      timestampInvariant final.meta := by
  refine ⟨?_, ?_, ?_, _, _, rfl, ?_⟩ <;>
  · intro j hj i hij tj hstamp
    interval_cases j <;> interval_cases i <;>
      simp [metaStamp, prepareMessage, stampPickedUp, stampProcessed,
            finalizeResult] at hstamp ⊢ <;>
      omega

/-- C3 witness: the invariant chain at a concrete run with clock reads
10 ≤ 20 ≤ 30 ≤ 40 ≤ 50. -/
theorem envelope_timestamp_invariant_witness :
    ((10 : Int) ≤ 20 ∧ (20 : Int) ≤ 30 ∧ (30 : Int) ≤ 40 ∧
      (40 : Int) ≤ 50) ∧
    (timestampInvariant (prepareMessage "balagan" 10 20 "id-1").meta ∧
     timestampInvariant
       (stampPickedUp (prepareMessage "balagan" 10 20 "id-1") 30).meta ∧
     timestampInvariant
       (stampProcessed (stampPickedUp (prepareMessage "balagan" 10 20 "id-1")
         30) 40).meta ∧
     ∃ final obs,
       finalizeResult
           (stampProcessed (stampPickedUp (prepareMessage "balagan" 10 20
             "id-1") 30) 40) 50 = some (final, obs) ∧
       timestampInvariant final.meta) :=
  ⟨⟨by decide, by decide, by decide, by decide⟩,
   envelope_timestamp_invariant "balagan" "id-1" 10 20 30 40 50
     (by decide) (by decide) (by decide) (by decide)⟩

/-- C4: the submit handler returns 400 on missing/empty content and
then leaves the job queue untouched; returns 500 when the enqueue push
fails, leaving the queue untouched and never consulting the result
store; and returns 504 when the result wait finds no slot. -/
theorem handler_error_paths (content : String) (t1 t2 : Int)
    (rid : String) (store altStore : String → Option Json) (t5 : Int)
    (q : List Json) :
    statusCode HandlerResult.badRequest = 400 ∧
    statusCode HandlerResult.serverError = 500 ∧
    statusCode HandlerResult.gatewayTimeout = 504 ∧
    (content = "" → ∀ pushOk,
      validateHandler content t1 t2 rid pushOk store t5 q =
        (HandlerResult.badRequest, q)) ∧
    (content ≠ "" →
      validateHandler content t1 t2 rid false store t5 q =
        (HandlerResult.serverError, q) ∧
      validateHandler content t1 t2 rid false store t5 q =
        validateHandler content t1 t2 rid false altStore t5 q) ∧
    (content ≠ "" → store (restResultKey rid) = none →
      validateHandler content t1 t2 rid true store t5 q =
        (HandlerResult.gatewayTimeout,
         q ++ [restSerialize (prepareMessage content t1 t2 rid)])) := by
  refine ⟨rfl, rfl, rfl, ?_, ?_, ?_⟩
  · intro h pushOk
    simp [validateHandler, h]
  · intro h
    constructor <;> simp [validateHandler, h]
  · intro h hstore
    simp [validateHandler, h, waitForResult, prepareMessage, hstore]

/-- C4 witness: the three error paths at concrete inputs — empty
content gives 400 with the queue unchanged, a failed push gives 500
with the queue unchanged, an empty result store gives 504. -/
theorem handler_error_paths_witness :
    validateHandler "" 1 2 "id-1" true (fun _ => none) 3 [] =
      (HandlerResult.badRequest, []) ∧
    validateHandler "a" 1 2 "id-1" false (fun _ => none) 3 [] =
      (HandlerResult.serverError, []) ∧
    validateHandler "a" 1 2 "id-1" true (fun _ => none) 3 [] =
      (HandlerResult.gatewayTimeout,
       [restSerialize (prepareMessage "a" 1 2 "id-1")]) :=
  ⟨(handler_error_paths "" 1 2 "id-1" (fun _ => none) (fun _ => none) 3
      []).2.2.2.1 rfl true,
   ((handler_error_paths "a" 1 2 "id-1" (fun _ => none) (fun _ => none) 3
      []).2.2.2.2.1 (by decide)).1,
   (handler_error_paths "a" 1 2 "id-1" (fun _ => none) (fun _ => none) 3
      []).2.2.2.2.2 (by decide) rfl⟩

/-- C9: the worker loop survives bad jobs: a transport error on the
blocking pop and a malformed (non-deserializable) payload both leave
the loop running, producing the same published results as the rest of
the stream, with nothing published for the bad iteration. -/
theorem worker_loop_survives_bad_jobs (e : WorkerEnv)
    (rest : List WorkerEnv) :
    (e.popPayload = none → runWorker (e :: rest) = runWorker rest) ∧
    (∀ j, e.popPayload = some j → workerParse j = none →
      runWorker (e :: rest) = runWorker rest) := by
  constructor
  · intro h
    simp [runWorker, h]
  · intro j hj hparse
    simp [runWorker, hj, hparse]

/-- C9 witness: a transport-error iteration and a malformed-payload
iteration (a bare JSON number) are both dropped and the loop goes on. -/
theorem worker_loop_survives_bad_jobs_witness :
    runWorker [⟨none, 1, 2, true⟩] = runWorker [] ∧
    workerParse (Json.num 3) = none ∧
    runWorker [⟨some (Json.num 3), 1, 2, true⟩] = runWorker [] :=
  ⟨(worker_loop_survives_bad_jobs ⟨none, 1, 2, true⟩ []).1 rfl,
   rfl,
   (worker_loop_survives_bad_jobs ⟨some (Json.num 3), 1, 2, true⟩ []).2
     (Json.num 3) rfl rfl⟩

/-- C6 counterexample: the meta object of a serialized response does
not carry the field names `received_ns`, `enqueued_ns`, `picked_up_ns`,
`processed_ns`, `consumed_ns`, `roundtrip_duration_ns`; its actual
field names are the `rest_`/`worker_`-prefixed tags of `rest/main.go`. -/
theorem response_meta_field_names_cex :
    objKeys (objField (restSerialize (prepareMessage "balagan" 1 2 "id-1"))
        "meta") =
      ["rest_request_received_ns", "rest_request_pushed_ns",
       "worker_request_pulled_ns", "worker_response_pushed_ns",
       "rest_response_pulled_ns", "rest_roundtrip_duration_ns"] ∧
    (objKeys (objField (restSerialize (prepareMessage "balagan" 1 2 "id-1"))
        "meta") ==
      ["received_ns", "enqueued_ns", "picked_up_ns", "processed_ns",
       "consumed_ns", "roundtrip_duration_ns"]) = false :=
  ⟨rfl, rfl⟩

/-- C6 amended: every serialized response body has exactly the shape
`{request_id, meta, data}` with meta fields
`rest_request_received_ns, rest_request_pushed_ns,
worker_request_pulled_ns, worker_response_pushed_ns,
rest_response_pulled_ns, rest_roundtrip_duration_ns` and data fields
`content, result`. -/
theorem response_field_names_amended (m : Message) :
    objKeys (restSerialize m) = ["request_id", "meta", "data"] ∧
    objKeys (objField (restSerialize m) "meta") =
      ["rest_request_received_ns", "rest_request_pushed_ns",
       "worker_request_pulled_ns", "worker_response_pushed_ns",
       "rest_response_pulled_ns", "rest_roundtrip_duration_ns"] ∧
    objKeys (objField (restSerialize m) "data") = ["content", "result"] :=
  ⟨rfl, rfl, rfl⟩

/-- C7 counterexample: the worker serializes a freshly submitted job
(whose result-consumed timestamp is still unset, `null` on the wire and
hence `0` after the worker unmarshals it into its plain `int64`
fields) with `rest_response_pulled_ns` equal to the number `0`, not
`null`: absence is represented by the sentinel zero in
worker-published envelopes. -/
theorem worker_zero_sentinel_cex :
    (workerParse (restSerialize (prepareMessage "balagan" 1 2
        "id-1"))).isSome = true ∧
    (prepareMessage "balagan" 1 2 "id-1").meta.restResponsePulled = none ∧
    List.lookup "rest_response_pulled_ns"
      (workerMetaFields
        (workerStep
          ((workerParse (restSerialize (prepareMessage "balagan" 1 2
            "id-1"))).getD wmZero) 3 4).meta) = some (Json.num 0) ∧
    isNullJson (Json.num 0) = false :=
  ⟨rfl, rfl, rfl, rfl⟩

/-- C7 amended: the gateway serializes timestamps as nullable values —
`null` exactly where the stage has not stamped them — while the worker
marshals plain `int64` timestamp fields, always emitting a number, so
worker-published envelopes carry `0` for not-yet-stamped stages. -/
theorem serialization_nullability_amended (me : Meta) (w : WMeta)
    (o : Option Int) :
    (optIntJson o = Json.null ↔ o = none) ∧
    restMetaFields me =
      [("rest_request_received_ns", optIntJson me.restRequestReceived),
       ("rest_request_pushed_ns", optIntJson me.restRequestPushed),
       ("worker_request_pulled_ns", optIntJson me.workerRequestPulled),
       ("worker_response_pushed_ns", optIntJson me.workerResponsePushed),
       ("rest_response_pulled_ns", optIntJson me.restResponsePulled),
       ("rest_roundtrip_duration_ns", optIntJson me.roundtripDurationNs)] ∧
    workerMetaFields w =
      [("rest_request_received_ns", Json.num w.restRequestReceived),
       ("rest_request_pushed_ns", Json.num w.restRequestPushed),
       ("worker_request_pulled_ns", Json.num w.workerRequestPulled),
       ("worker_response_pushed_ns", Json.num w.workerResponsePushed),
       ("rest_response_pulled_ns", Json.num w.restResponsePulled),
       ("rest_roundtrip_duration_ns", Json.num w.roundtripDurationNs)] := by
  refine ⟨?_, rfl, rfl⟩
  cases o <;> simp [optIntJson]

end SyncToAsync
